import Mathlib

/-!
# api_file_converter: PDF to image / text command-line converters

Shallow embedding of the four programs of the repository

* `src/convert_pdf.cpp`                    (Variant A, dispatch on the output extension),
* `src/cpp_pdf_converter/convert_pdf.cpp`  (Variant B, dispatch on the `img` / `txt` flag),
* `src/pdf_to_img.cpp`, `src/pdf_to_txt.cpp` (single-purpose binaries).

Every program is a function from its command line and an environment `Env`
(the answers of ImageMagick, poppler and the file system) to a `Run`: how the
call ended together with the ordered trace of the external calls and stream
writes it performed.  A `String` stands for a C++ `std::string`; its characters
stand for the `char` units of the C++ string.

Assumptions on the libraries, which the sources make as well: the Magick++ setters
(`magick`, `strip`, `type`, `colorSpace`) update the image state and raise nothing,
`create_page(i)` yields a page for every `i < pages()`, and a write to an open
`std::ofstream` appends its characters.
-/

namespace PdfConv

/-! ## std::string operations used by the sources -/

/-- The value of `std::string::npos` on a 64-bit target. -/
def npos : Nat := 2 ^ 64 - 1

/-- Index of the last occurrence of `c` in a character list, if there is one. -/
def rfindList (c : Char) : List Char → Option Nat
  | [] => none
  | x :: xs =>
    match rfindList c xs with
    | some k => some (k + 1)
    | none => if x = c then some 0 else none

/-- Method `s.rfind(c)`: position of the last `c`, or `npos` when `c` does not occur. -/
def rfind (s : String) (c : Char) : Nat :=
  (rfindList c s.data).getD npos

/-- Method `s.substr(pos)`: the suffix from `pos`; `none` stands for the
`std::out_of_range` exception thrown when `pos > s.size()`. -/
def substr (s : String) (pos : Nat) : Option String :=
  if pos > s.length then none else some ⟨s.data.drop pos⟩

/-! ## Magick++ image state -/

/-- Enumeration `Magick::ImageType`; only the two values named by the sources are distinguished. -/
inductive ImageType where
  | GrayscaleType
  | TrueColorType
  | otherType (n : Nat)
  deriving DecidableEq

/-- Enumeration `Magick::ColorspaceType`; only `RGBColorspace` is named by the sources. -/
inductive ColorspaceType where
  | RGBColorspace
  | otherColorspace (n : Nat)
  deriving DecidableEq

/-- State of a `Magick::Image`: output format, type, colour space, attached profiles. -/
structure Image where
  magick : String
  type : ImageType
  colorSpace : ColorspaceType
  profiles : List String
  deriving DecidableEq

/-- Setter `image.magick(fmt)`. -/
def Image.setMagick (img : Image) (fmt : String) : Image := { img with magick := fmt }

/-- Method `image.strip()`: removes all profiles. -/
def Image.strip (img : Image) : Image := { img with profiles := [] }

/-- Setter `image.type(t)`. -/
def Image.setType (img : Image) (t : ImageType) : Image := { img with type := t }

/-- Setter `image.colorSpace(cs)`. -/
def Image.setColorSpace (img : Image) (cs : ColorspaceType) : Image :=
  { img with colorSpace := cs }

/-! ## poppler documents -/

/-- A `poppler::ustring`: a sequence of 16-bit code units. -/
abbrev ustring := List Nat

/-- Conversion `std::string text(utext.begin(), utext.end())`: every code unit is narrowed to a `char`. -/
def narrow (utext : ustring) : String :=
  ⟨utext.map (fun u => Char.ofNat (u % 256))⟩

/-- A loaded `poppler::document`: `pages()` and, for each index, the text of
`create_page(i)->text()`.  As in the sources, page creation is assumed to succeed
for every index below `pages()`. -/
structure document where
  pages : Nat
  pageText : Nat → ustring

/-! ## Environment, events and runs -/

/-- Answers of the external libraries and of the file system. -/
structure Env where
  /-- Constructor `Magick::Image(spec)`: the decoded image, or the `what()` of the exception. -/
  readImage : String → Except String Image
  /-- Call `image.write(path)`: `some what` when a `Magick::Exception` is thrown. -/
  writeImage : Image → String → Option String
  /-- Call `poppler::document::load_from_file(path)`: `none` is the null pointer. -/
  load_from_file : String → Option document
  /-- Does `std::ofstream output(path)` end up open? -/
  is_open : String → Bool

/-- Observable actions, one per source statement that reaches outside the program. -/
inductive Event where
  | cout (s : String)
  | cerr (s : String)
  | InitializeMagick
  | imageRead (spec : String)
  | imageWrite (img : Image) (path : String)
  | load_from_file (path : String)
  | ofstream (path : String)
  | create_page (i : Nat)
  | fileWrite (path : String) (data : String)
  deriving DecidableEq

/-- How a function call (or the process) ended: `returned n` is `return n`,
`out_of_range` is a `std::out_of_range` that nothing catches. -/
inductive Status where
  | returned (code : Int)
  | out_of_range
  deriving DecidableEq

/-- Result of running a function: final status and the trace of events in order. -/
structure Run where
  status : Status
  trace : List Event
  deriving DecidableEq

/-- Is the event a write to standard output? -/
def Event.isCout : Event → Bool
  | .cout _ => true
  | _ => false

/-- Is the event a write to standard error? -/
def Event.isCerr : Event → Bool
  | .cerr _ => true
  | _ => false

/-- Events that only the image converters perform (ImageMagick calls). -/
def Event.isMagick : Event → Bool
  | .InitializeMagick => true
  | .imageRead _ => true
  | .imageWrite _ _ => true
  | _ => false

/-- Events that only the text converters perform (poppler calls, output file). -/
def Event.isText : Event → Bool
  | .load_from_file _ => true
  | .ofstream _ => true
  | .create_page _ => true
  | .fileWrite _ _ => true
  | _ => false

/-- Events that touch a library or a file (everything except the two console streams). -/
def Event.touchesLibraryOrFile (e : Event) : Bool := e.isMagick || e.isText

/-- The characters written to the file `path`, in order. -/
def bytesWritten (path : String) : List Event → String
  | [] => ""
  | .fileWrite p data :: es =>
    if p = path then data ++ bytesWritten path es else bytesWritten path es
  | _ :: es => bytesWritten path es

/-- The images handed to `image.write`, in order. -/
def imagesWritten : List Event → List Image
  | [] => []
  | .imageWrite img _ :: es => img :: imagesWritten es
  | _ :: es => imagesWritten es

/-- The text-extraction loop shared by the three text converters:
`for (int i = 0; i < num_pages; ++i) { p = doc->create_page(i); text = p->text();
output << text << "\n\n"; }`, started at index `i` with `remaining = num_pages - i`. -/
def pageLoop (doc : document) (output_file : String) : (remaining : Nat) → (i : Nat) → List Event
  | 0, _ => []
  | n + 1, i =>
    Event.create_page i
      :: Event.fileWrite output_file (narrow (doc.pageText i) ++ "\n\n")
      :: pageLoop doc output_file n (i + 1)

set_option linter.unusedVariables false

/-! ## src/convert_pdf.cpp (Variant A) -/

namespace convert_pdf

/-- The static set `valid_image_extensions` of `pdf2img`. -/
def valid_image_extensions : List String :=
  [".jpg", ".jpeg", ".png", ".bmp", ".tiff", ".gif"]

/-- Function `pdf2img` of `src/convert_pdf.cpp`.  The whole body is inside
`try { ... } catch (Magick::Exception &)`, so a `std::out_of_range` raised by
`substr` leaves the function. -/
def pdf2img (env : Env) (input_pdf output_file : String) : Run :=
  let t0 := [Event.InitializeMagick]
  match substr output_file (rfind output_file '.') with
  | none => ⟨.out_of_range, t0⟩
  | some extension =>
    if extension ∉ valid_image_extensions then
      ⟨.returned 1, t0 ++ [.cerr
        "Invalid image file format. Supported formats: jpg, jpeg, png, bmp, tiff, gif.\n"]⟩
    else
      let t1 := t0 ++ [.imageRead (input_pdf ++ "[0]")]
      match env.readImage (input_pdf ++ "[0]") with
      | .error what => ⟨.returned 1, t1 ++ [.cerr ("Error: " ++ what ++ "\n")]⟩
      | .ok image =>
        match substr extension 1 with
        | none => ⟨.out_of_range, t1⟩
        | some fmt =>
          let image := image.setMagick fmt
          let image := image.strip
          let image :=
            if image.type = ImageType.GrayscaleType then image.setType .TrueColorType else image
          let image := image.setColorSpace .RGBColorspace
          let t2 := t1 ++ [.imageWrite image output_file]
          match env.writeImage image output_file with
          | some what => ⟨.returned 1, t2 ++ [.cerr ("Error: " ++ what ++ "\n")]⟩
          | none =>
            ⟨.returned 0,
              t2 ++ [.cout ("PDF successfully converted to image: " ++ output_file ++ "\n")]⟩

/-- Function `pdf2txt` of `src/convert_pdf.cpp`. -/
def pdf2txt (env : Env) (input_pdf output_file : String) : Run :=
  let t0 := [Event.load_from_file input_pdf]
  match env.load_from_file input_pdf with
  | none =>
    ⟨.returned 1, t0 ++ [.cerr ("Error occurred while opening PDF: " ++ input_pdf ++ "\n")]⟩
  | some doc =>
    let t1 := t0 ++ [.ofstream output_file]
    if !env.is_open output_file then
      ⟨.returned 1,
        t1 ++ [.cerr ("Error occurred while opening output file: " ++ output_file ++ "\n")]⟩
    else
      let num_pages := doc.pages
      ⟨.returned 0,
        t1 ++ pageLoop doc output_file num_pages 0
          ++ [.cout "PDF successfully converted to text!\n"]⟩

/-- The global `format_map`: extension (with its dot) to converter. -/
def format_map : List (String × (Env → String → String → Run)) :=
  [(".jpg", pdf2img), (".jpeg", pdf2img), (".png", pdf2img), (".bmp", pdf2img),
   (".tiff", pdf2img), (".gif", pdf2img),
   (".txt", pdf2txt), (".docx", pdf2txt), (".odt", pdf2txt)]

/-- Function `main` of `src/convert_pdf.cpp`; `argc = args.length + 1`, `argv[0] = argv0`
and `argv[i + 1] = args[i]`.  Nothing in `main` catches the `std::out_of_range`
of `substr`, so that status means the process is terminated. -/
def main (env : Env) (argv0 : String) (args : List String) : Run :=
  if args.length + 1 ≠ 4 then
    ⟨.returned 1, [.cerr ("Usage: " ++ argv0 ++ " <format_to> <input_pdf> <output_file>\n")]⟩
  else
    let format_to := args.getD 0 ""
    let input_pdf := args.getD 1 ""
    let output_file := args.getD 2 ""
    match substr output_file (rfind output_file '.') with
    | none => ⟨.out_of_range, []⟩
    | some extension =>
      match format_map.lookup extension with
      | some f => f env input_pdf output_file
      | none =>
        ⟨.returned 1, [.cerr
          ("Unsupported file format. Supported formats: "
            ++ ".txt, .docx, .odt, .jpg, .jpeg, .png, .bmp, .tiff, .gif.\n")]⟩

end convert_pdf

/-! ## src/cpp_pdf_converter/convert_pdf.cpp (Variant B) -/

namespace cpp_pdf_converter

/-- Function `pdf2img` of `src/cpp_pdf_converter/convert_pdf.cpp`. -/
def pdf2img (env : Env) (input_pdf output_file : String) : Run :=
  let t0 := [Event.InitializeMagick]
  let t1 := t0 ++ [.imageRead (input_pdf ++ "[0]")]
  match env.readImage (input_pdf ++ "[0]") with
  | .error what => ⟨.returned 1, t1 ++ [.cerr ("Error: " ++ what ++ "\n")]⟩
  | .ok image =>
    let t2 := t1 ++ [.imageWrite image output_file]
    match env.writeImage image output_file with
    | some what => ⟨.returned 1, t2 ++ [.cerr ("Error: " ++ what ++ "\n")]⟩
    | none => ⟨.returned 0, t2 ++ [.cout "Conversion ended!\n"]⟩

/-- Function `pdf2txt` of `src/cpp_pdf_converter/convert_pdf.cpp`. -/
def pdf2txt (env : Env) (input_pdf output_file : String) : Run :=
  let t0 := [Event.load_from_file input_pdf]
  match env.load_from_file input_pdf with
  | none =>
    ⟨.returned 1, t0 ++ [.cerr ("Error occurred while opening PDF: " ++ input_pdf ++ "\n")]⟩
  | some doc =>
    let t1 := t0 ++ [.ofstream output_file]
    if !env.is_open output_file then
      ⟨.returned 1,
        t1 ++ [.cerr ("Error occurred while opening output file: " ++ output_file ++ "\n")]⟩
    else
      let num_pages := doc.pages
      ⟨.returned 0,
        t1 ++ pageLoop doc output_file num_pages 0
          ++ [.cout "PDF successfully converted to text!\n"]⟩

/-- Function `main` of `src/cpp_pdf_converter/convert_pdf.cpp`; `argc = args.length + 1`. -/
def main (env : Env) (argv0 : String) (args : List String) : Run :=
  if args.length + 1 ≠ 4 then
    ⟨.returned 1, [.cerr ("Usage: " ++ argv0 ++ " <format_to> <input_pdf> <output_file>\n")]⟩
  else
    let format_to := args.getD 0 ""
    let input_pdf := args.getD 1 ""
    let output_file := args.getD 2 ""
    if format_to = "img" then
      pdf2img env input_pdf output_file
    else if format_to = "txt" then
      pdf2txt env input_pdf output_file
    else
      ⟨.returned 1, [.cerr "Invalid format specified.\n"]⟩

end cpp_pdf_converter

/-! ## src/pdf_to_img.cpp -/

namespace pdf_to_img

/-- Function `main` of `src/pdf_to_img.cpp`; `argc = args.length + 1`.  The `catch`
block prints the error and falls through to the final `return 0`. -/
def main (env : Env) (argv0 : String) (args : List String) : Run :=
  if args.length + 1 ≠ 3 then
    ⟨.returned 1, [.cerr ("Usage: " ++ argv0 ++ "<input_pdf> <output_jpeg>\n")]⟩
  else
    let t0 := [Event.InitializeMagick]
    let input_pdf := args.getD 0 ""
    let output_jpeg := args.getD 1 ""
    let t1 := t0 ++ [.imageRead (input_pdf ++ "[0]")]
    match env.readImage (input_pdf ++ "[0]") with
    | .error what => ⟨.returned 0, t1 ++ [.cerr ("Error: " ++ what ++ "\n")]⟩
    | .ok image =>
      let t2 := t1 ++ [.imageWrite image output_jpeg]
      match env.writeImage image output_jpeg with
      | some what => ⟨.returned 0, t2 ++ [.cerr ("Error: " ++ what ++ "\n")]⟩
      | none => ⟨.returned 0, t2 ++ [.cout "Convertion ended!\n"]⟩

end pdf_to_img

/-! ## src/pdf_to_txt.cpp -/

namespace pdf_to_txt

/-- Function `main` of `src/pdf_to_txt.cpp`; `argc = args.length + 1`. -/
def main (env : Env) (argv0 : String) (args : List String) : Run :=
  if args.length + 1 ≠ 3 then
    ⟨.returned 1, [.cerr ("Usage: " ++ argv0 ++ "<input_pdf> <output_txt>\n")]⟩
  else
    let input_pdf := args.getD 0 ""
    let output_txt := args.getD 1 ""
    let t0 := [Event.load_from_file input_pdf]
    match env.load_from_file input_pdf with
    | none =>
      ⟨.returned 1, t0 ++ [.cerr ("Error occurred while opening PDF: " ++ input_pdf ++ "\n")]⟩
    | some doc =>
      let t1 := t0 ++ [.ofstream output_txt]
      if !env.is_open output_txt then
        ⟨.returned 1,
          t1 ++ [.cerr ("Error occurred while opening output file: " ++ output_txt ++ "\n")]⟩
      else
        let num_pages := doc.pages
        ⟨.returned 0,
          t1 ++ pageLoop doc output_txt num_pages 0
            ++ [.cout "PDF successfully converted to text!\n"]⟩

end pdf_to_txt

/-! ## Sample environments -/

/-- A grayscale page as ImageMagick could decode it. -/
def grayPage : Image :=
  { magick := "PDF", type := .GrayscaleType, colorSpace := .otherColorspace 0,
    profiles := ["icc"] }

/-- The three-page document of the specification example. -/
def threePages : document :=
  { pages := 3
    pageText := fun i =>
      if i = 0 then "page1text".data.map Char.toNat
      else if i = 1 then "page2text".data.map Char.toNat
      else if i = 2 then "page3text".data.map Char.toNat
      else [] }

/-- An environment in which `in.pdf` is a readable three-page grayscale PDF and
every output path can be written. -/
def goodEnv : Env :=
  { readImage := fun spec =>
      if spec = "in.pdf[0]" then .ok grayPage else .error "unable to open image"
    writeImage := fun _ _ => none
    load_from_file := fun path => if path = "in.pdf" then some threePages else none
    is_open := fun _ => true }

/-- An environment in which no input can be read and no output can be opened. -/
def badEnv : Env :=
  { readImage := fun _ => .error "unable to open image"
    writeImage := fun _ _ => some "unable to open image"
    load_from_file := fun _ => none
    is_open := fun _ => false }

/-- An environment in which `in.pdf` loads but no output file can be opened. -/
def readOnlyEnv : Env :=
  { goodEnv with is_open := fun _ => false, writeImage := fun _ _ => some "unable to open image" }

/-! ## Specification-side notions -/

/-- The texts `t_0, ..., t_{N-1}` of the pages of a document, in page order. -/
def pageTexts (doc : document) : List String :=
  (List.range doc.pages).map (fun i => narrow (doc.pageText i))

/-- The expected output `t_0 ++ "\n\n" ++ t_1 ++ "\n\n" ++ ...`: every text followed
by a double newline, the last one included. -/
def joinPages : List String → String
  | [] => ""
  | t :: ts => t ++ "\n\n" ++ joinPages ts

/-- The expected events of the page loop: for every page index in ascending order,
the page is created and its text plus a double newline is written to `path`. -/
def pageEvents (doc : document) (path : String) : List Event :=
  ((List.range doc.pages).map (fun i =>
    [Event.create_page i, Event.fileWrite path (narrow (doc.pageText i) ++ "\n\n")])).flatten

/-! ## Lemmas on the string operations -/

theorem rfindList_eq_none {c : Char} {l : List Char} (h : c ∉ l) : rfindList c l = none := by
  induction l with
  | nil => rfl
  | cons x xs ih =>
    have hx : ¬ x = c := fun e => h (by simp [e])
    have hxs : c ∉ xs := fun e => h (by simp [e])
    simp [rfindList, ih hxs, hx]

theorem rfindList_last {c : Char} (pre suf : List Char) (h : c ∉ suf) :
    rfindList c (pre ++ c :: suf) = some pre.length := by
  induction pre with
  | nil => simp [rfindList, rfindList_eq_none h]
  | cons x xs ih => simp [rfindList, ih]

theorem substr_rfind_last (s : String) (pre suf : List Char)
    (hsplit : s.data = pre ++ '.' :: suf) (hlast : '.' ∉ suf) :
    substr s (rfind s '.') = some ⟨'.' :: suf⟩ := by
  simp [substr, rfind, hsplit, rfindList_last pre suf hlast, String.length]

theorem substr_rfind_noDot (s : String) (hno : '.' ∉ s.data) (hlen : s.length < npos) :
    substr s (rfind s '.') = none := by
  simp [substr, rfind, rfindList_eq_none hno, hlen]

/-! ## Lemmas on the format table of Variant A -/

theorem lookup_image {ext : String}
    (h : ext ∈ [".jpg", ".jpeg", ".png", ".bmp", ".tiff", ".gif"]) :
    convert_pdf.format_map.lookup ext = some convert_pdf.pdf2img := by
  simp only [List.mem_cons, List.mem_singleton, List.not_mem_nil, or_false] at h
  rcases h with rfl | rfl | rfl | rfl | rfl | rfl <;> rfl

theorem lookup_text {ext : String} (h : ext ∈ [".txt", ".docx", ".odt"]) :
    convert_pdf.format_map.lookup ext = some convert_pdf.pdf2txt := by
  simp only [List.mem_cons, List.mem_singleton, List.not_mem_nil, or_false] at h
  rcases h with rfl | rfl | rfl <;> rfl

theorem lookup_none {ext : String}
    (h : ext ∉ [".jpg", ".jpeg", ".png", ".bmp", ".tiff", ".gif", ".txt", ".docx", ".odt"]) :
    convert_pdf.format_map.lookup ext = none := by
  simp only [List.mem_cons, List.mem_singleton, List.not_mem_nil, or_false, not_or] at h
  obtain ⟨h1, h2, h3, h4, h5, h6, h7, h8, h9⟩ := h
  have b1 : (ext == ".jpg") = false := by simpa using h1
  have b2 : (ext == ".jpeg") = false := by simpa using h2
  have b3 : (ext == ".png") = false := by simpa using h3
  have b4 : (ext == ".bmp") = false := by simpa using h4
  have b5 : (ext == ".tiff") = false := by simpa using h5
  have b6 : (ext == ".gif") = false := by simpa using h6
  have b7 : (ext == ".txt") = false := by simpa using h7
  have b8 : (ext == ".docx") = false := by simpa using h8
  have b9 : (ext == ".odt") = false := by simpa using h9
  simp only [convert_pdf.format_map, List.lookup, b1, b2, b3, b4, b5, b6, b7, b8, b9]

/-! ## Lemmas on the page loop -/

theorem pageLoop_eq (doc : document) (path : String) (n i : Nat) :
    pageLoop doc path n i =
      ((List.range' i n).map (fun j =>
        [Event.create_page j, Event.fileWrite path (narrow (doc.pageText j) ++ "\n\n")])).flatten := by
  induction n generalizing i with
  | zero => simp [pageLoop]
  | succ n ih => simp [pageLoop, ih, List.range'_succ]

theorem pageLoop_eq_pageEvents (doc : document) (path : String) :
    pageLoop doc path doc.pages 0 = pageEvents doc path := by
  simp [pageLoop_eq, pageEvents, List.range_eq_range']

theorem bytesWritten_append (path : String) (xs ys : List Event) :
    bytesWritten path (xs ++ ys) = bytesWritten path xs ++ bytesWritten path ys := by
  induction xs with
  | nil => simp [bytesWritten]
  | cons e es ih =>
    cases e <;> simp [bytesWritten, ih]
    split <;> simp [String.append_assoc]

theorem bytesWritten_pageLoop (doc : document) (path : String) (n i : Nat) :
    bytesWritten path (pageLoop doc path n i) =
      joinPages ((List.range' i n).map (fun j => narrow (doc.pageText j))) := by
  induction n generalizing i with
  | zero => simp [pageLoop, bytesWritten, joinPages]
  | succ n ih => simp [pageLoop, bytesWritten, joinPages, ih, List.range'_succ]

theorem pageLoop_isText (doc : document) (path : String) (n i : Nat) :
    ∀ e ∈ pageLoop doc path n i, e.isText = true ∧ e.isMagick = false ∧ e.isCout = false := by
  induction n generalizing i with
  | zero => simp [pageLoop]
  | succ n ih =>
    intro e he
    simp only [pageLoop, List.mem_cons] at he
    rcases he with rfl | rfl | he
    · simp [Event.isText, Event.isMagick, Event.isCout]
    · simp [Event.isText, Event.isMagick, Event.isCout]
    · exact ih (i + 1) e he

/-! ## Lemmas on the converters -/

theorem convert_pdf_pdf2img_noText (env : Env) (input_pdf output_file : String) :
    ∀ e ∈ (convert_pdf.pdf2img env input_pdf output_file).trace, e.isText = false := by
  intro e he
  unfold convert_pdf.pdf2img at he
  split at he
  · simp at he; subst he; rfl
  · split at he
    · simp at he; rcases he with rfl | rfl <;> rfl
    · split at he
      · simp at he; rcases he with rfl | rfl | rfl <;> rfl
      · split at he
        · simp at he; rcases he with rfl | rfl <;> rfl
        · dsimp only at he
          split at he
          · simp at he; rcases he with rfl | rfl | rfl | rfl <;> rfl
          · simp at he; rcases he with rfl | rfl | rfl | rfl <;> rfl

theorem convert_pdf_pdf2txt_noMagick (env : Env) (input_pdf output_file : String) :
    ∀ e ∈ (convert_pdf.pdf2txt env input_pdf output_file).trace, e.isMagick = false := by
  intro e he
  unfold convert_pdf.pdf2txt at he
  split at he
  · simp at he; rcases he with rfl | rfl <;> rfl
  · split at he
    · simp at he; rcases he with rfl | rfl | rfl <;> rfl
    · simp at he
      rcases he with rfl | rfl | he | rfl
      · rfl
      · rfl
      · exact (pageLoop_isText _ _ _ _ e he).2.1
      · rfl

/-- In Variant A every image handed to `image.write` is RGB and not grayscale; it is
true-color when the loaded page was grayscale and keeps the loaded type otherwise. -/
theorem convert_pdf_pdf2img_written (env : Env) (input_pdf output_file : String)
    (page : Image) (hread : env.readImage (input_pdf ++ "[0]") = Except.ok page) :
    ∀ img ∈ imagesWritten (convert_pdf.pdf2img env input_pdf output_file).trace,
      img.colorSpace = ColorspaceType.RGBColorspace ∧ img.type ≠ ImageType.GrayscaleType ∧
      (page.type = ImageType.GrayscaleType → img.type = ImageType.TrueColorType) ∧
      (page.type ≠ ImageType.GrayscaleType → img.type = page.type) := by
  intro img himg
  unfold convert_pdf.pdf2img at himg
  split at himg
  · simp [imagesWritten] at himg
  · split at himg
    · simp [imagesWritten] at himg
    · rw [hread] at himg
      dsimp only at himg
      split at himg
      · simp [imagesWritten] at himg
      · split at himg <;>
        · simp [imagesWritten] at himg
          subst himg
          refine ⟨rfl, ?_, ?_, ?_⟩ <;>
          · simp only [Image.setColorSpace]
            split <;> simp_all [Image.setType, Image.strip, Image.setMagick]

/-- Any dot-free output path of admissible size makes `main` of Variant A end with the
uncaught `std::out_of_range`, before any action. -/
theorem convert_pdf_main_noDot (env : Env) (argv0 flag input_pdf output_file : String)
    (hno : '.' ∉ output_file.data) (hlen : output_file.length < npos) :
    convert_pdf.main env argv0 [flag, input_pdf, output_file] = ⟨Status.out_of_range, []⟩ := by
  simp [convert_pdf.main, substr_rfind_noDot output_file hno hlen]

/-- With two arguments `main` of `pdf_to_img.cpp` returns 0 whatever ImageMagick does. -/
theorem pdf_to_img_main_status (env : Env) (argv0 input_pdf output_jpeg : String) :
    (pdf_to_img.main env argv0 [input_pdf, output_jpeg]).status = Status.returned 0 := by
  simp only [pdf_to_img.main]
  split
  · simp at *
  · split
    · rfl
    · split <;> rfl

/-- The image converter of Variant B returns 0 exactly when the page loads and the
write raises nothing, and 1 otherwise. -/
theorem cpp_pdf_converter_pdf2img_status (env : Env) (input_pdf output_file : String) :
    ((cpp_pdf_converter.pdf2img env input_pdf output_file).status = Status.returned 0 ↔
      ∃ img, env.readImage (input_pdf ++ "[0]") = Except.ok img ∧
        env.writeImage img output_file = none) ∧
    ((cpp_pdf_converter.pdf2img env input_pdf output_file).status = Status.returned 0 ∨
      (cpp_pdf_converter.pdf2img env input_pdf output_file).status = Status.returned 1) := by
  unfold cpp_pdf_converter.pdf2img
  cases hr : env.readImage (input_pdf ++ "[0]") with
  | error what => simp
  | ok img =>
    cases hw : env.writeImage img output_file with
    | none => simp [hw]
    | some what => simp [hw]

/-- The text converters return 0 exactly when the document loads and the output opens,
and 1 otherwise. -/
theorem pdf2txt_status (env : Env) (input_pdf output_file : String) :
    ((convert_pdf.pdf2txt env input_pdf output_file).status = Status.returned 0 ↔
      (env.load_from_file input_pdf).isSome = true ∧ env.is_open output_file = true) ∧
    ((convert_pdf.pdf2txt env input_pdf output_file).status = Status.returned 0 ∨
      (convert_pdf.pdf2txt env input_pdf output_file).status = Status.returned 1) := by
  unfold convert_pdf.pdf2txt
  cases hl : env.load_from_file input_pdf with
  | none => simp
  | some doc =>
    cases ho : env.is_open output_file <;> simp

/-! ## Variant A: the format resolver -/

/-- C1. Variant A with three arguments whose output path has its last `.` followed
by `suf`: when `.suf` is one of the six image extensions, `main` is exactly the call
`pdf2img(input_pdf, output_file)` (same status, same actions) and performs no action
of the text converter; when `.suf` is `.txt`, `.docx` or `.odt`, `main` is exactly the
call `pdf2txt(input_pdf, output_file)` and performs no ImageMagick action. -/
theorem C1_format_resolver_dispatch (env : Env) (argv0 flag input_pdf output_file : String)
    (pre suf : List Char) (hsplit : output_file.data = pre ++ '.' :: suf)
    (hlast : '.' ∉ suf) :
    (String.mk ('.' :: suf) ∈ [".jpg", ".jpeg", ".png", ".bmp", ".tiff", ".gif"] →
      convert_pdf.main env argv0 [flag, input_pdf, output_file]
          = convert_pdf.pdf2img env input_pdf output_file ∧
        ∀ e ∈ (convert_pdf.main env argv0 [flag, input_pdf, output_file]).trace,
          e.isText = false) ∧
    (String.mk ('.' :: suf) ∈ [".txt", ".docx", ".odt"] →
      convert_pdf.main env argv0 [flag, input_pdf, output_file]
          = convert_pdf.pdf2txt env input_pdf output_file ∧
        ∀ e ∈ (convert_pdf.main env argv0 [flag, input_pdf, output_file]).trace,
          e.isMagick = false) := by
  have hsub := substr_rfind_last output_file pre suf hsplit hlast
  constructor
  · intro hext
    have hmain : convert_pdf.main env argv0 [flag, input_pdf, output_file]
        = convert_pdf.pdf2img env input_pdf output_file := by
      simp [convert_pdf.main, hsub, lookup_image hext]
    exact ⟨hmain, by rw [hmain]; exact convert_pdf_pdf2img_noText env input_pdf output_file⟩
  · intro hext
    have hmain : convert_pdf.main env argv0 [flag, input_pdf, output_file]
        = convert_pdf.pdf2txt env input_pdf output_file := by
      simp [convert_pdf.main, hsub, lookup_text hext]
    exact ⟨hmain, by rw [hmain]; exact convert_pdf_pdf2txt_noMagick env input_pdf output_file⟩

/-- Instance of C1 at `out.png` (image branch) and `out.docx` (text branch). -/
theorem C1_format_resolver_dispatch_witness :
    ("out.png".data = "out".data ++ '.' :: "png".data ∧ '.' ∉ "png".data ∧
      String.mk ('.' :: "png".data) ∈ [".jpg", ".jpeg", ".png", ".bmp", ".tiff", ".gif"] ∧
      convert_pdf.main goodEnv "convert" ["x", "in.pdf", "out.png"]
        = convert_pdf.pdf2img goodEnv "in.pdf" "out.png") ∧
    ("out.docx".data = "out".data ++ '.' :: "docx".data ∧ '.' ∉ "docx".data ∧
      String.mk ('.' :: "docx".data) ∈ [".txt", ".docx", ".odt"] ∧
      convert_pdf.main goodEnv "convert" ["x", "in.pdf", "out.docx"]
        = convert_pdf.pdf2txt goodEnv "in.pdf" "out.docx") :=
  ⟨⟨by decide, by decide, by decide,
      ((C1_format_resolver_dispatch goodEnv "convert" "x" "in.pdf" "out.png"
        "out".data "png".data (by decide) (by decide)).1 (by decide)).1⟩,
   ⟨by decide, by decide, by decide,
      ((C1_format_resolver_dispatch goodEnv "convert" "x" "in.pdf" "out.docx"
        "out".data "docx".data (by decide) (by decide)).2 (by decide)).1⟩⟩

/-- C4. Variant A with three arguments whose output path has its last `.` followed by
`suf`, where `.suf` is none of the nine supported extensions: `main` only writes the
supported-formats message to standard error and returns 1; no library is called and
no file is opened. -/
theorem C4_unsupported_extension_rejected (env : Env)
    (argv0 flag input_pdf output_file : String) (pre suf : List Char)
    (hsplit : output_file.data = pre ++ '.' :: suf) (hlast : '.' ∉ suf)
    (hext : String.mk ('.' :: suf) ∉
      [".jpg", ".jpeg", ".png", ".bmp", ".tiff", ".gif", ".txt", ".docx", ".odt"]) :
    convert_pdf.main env argv0 [flag, input_pdf, output_file] =
        ⟨Status.returned 1, [Event.cerr
          ("Unsupported file format. Supported formats: "
            ++ ".txt, .docx, .odt, .jpg, .jpeg, .png, .bmp, .tiff, .gif.\n")]⟩ ∧
      ∀ e ∈ (convert_pdf.main env argv0 [flag, input_pdf, output_file]).trace,
        e.touchesLibraryOrFile = false := by
  have hsub := substr_rfind_last output_file pre suf hsplit hlast
  have hmain : convert_pdf.main env argv0 [flag, input_pdf, output_file] =
      ⟨Status.returned 1, [Event.cerr
        ("Unsupported file format. Supported formats: "
          ++ ".txt, .docx, .odt, .jpg, .jpeg, .png, .bmp, .tiff, .gif.\n")]⟩ := by
    simp [convert_pdf.main, hsub, lookup_none hext]
  refine ⟨hmain, ?_⟩
  rw [hmain]
  intro e he
  simp only [List.mem_singleton] at he
  subst he
  rfl

/-- Instances of C4 at the upper-case suffix `out.PNG` and at the path `out.d/file`,
in an environment where the conversion itself would succeed. -/
theorem C4_unsupported_extension_rejected_witness :
    ("out.PNG".data = "out".data ++ '.' :: "PNG".data ∧ '.' ∉ "PNG".data ∧
      String.mk ('.' :: "PNG".data) ∉
        [".jpg", ".jpeg", ".png", ".bmp", ".tiff", ".gif", ".txt", ".docx", ".odt"] ∧
      (convert_pdf.main goodEnv "convert" ["png", "in.pdf", "out.PNG"]).status
        = Status.returned 1) ∧
    ("out.d/file".data = "out".data ++ '.' :: "d/file".data ∧ '.' ∉ "d/file".data ∧
      String.mk ('.' :: "d/file".data) ∉
        [".jpg", ".jpeg", ".png", ".bmp", ".tiff", ".gif", ".txt", ".docx", ".odt"] ∧
      (convert_pdf.main goodEnv "convert" ["txt", "in.pdf", "out.d/file"]).status
        = Status.returned 1) :=
  ⟨⟨by decide, by decide, by decide,
      congrArg Run.status (C4_unsupported_extension_rejected goodEnv "convert" "png" "in.pdf"
        "out.PNG" "out".data "PNG".data (by decide) (by decide) (by decide)).1⟩,
   ⟨by decide, by decide, by decide,
      congrArg Run.status (C4_unsupported_extension_rejected goodEnv "convert" "txt" "in.pdf"
        "out.d/file" "out".data "d/file".data (by decide) (by decide) (by decide)).1⟩⟩

/-- C5 (evaluation at the failing input). Variant A called with the dot-free output
path `out`: `rfind` yields `npos`, `substr(npos)` throws `std::out_of_range`, which
nothing catches; `main` neither prints the supported-formats message nor returns. -/
theorem C5_no_dot_output_terminates (env : Env) :
    rfind "out" '.' = npos ∧ substr "out" npos = none ∧
      convert_pdf.main env "convert" ["txt", "in.pdf", "out"] = ⟨Status.out_of_range, []⟩ := by
  refine ⟨by decide, by decide, ?_⟩
  have hsub : substr "out" (rfind "out" '.') = none := by decide
  simp [convert_pdf.main, hsub]

/-- C7. In Variant A the run (status and every action, in order) is the same for any
two values of the format flag. -/
theorem C7_format_flag_ignored (env : Env) (argv0 f1 f2 input_pdf output_file : String) :
    convert_pdf.main env argv0 [f1, input_pdf, output_file]
      = convert_pdf.main env argv0 [f2, input_pdf, output_file] := by
  simp [convert_pdf.main]

/-! ## Text extraction -/

/-- The run of a text converter on a document that loads and an output that opens. -/
theorem pdf2txt_success (env : Env) (input_pdf output_file : String) (doc : document)
    (hload : env.load_from_file input_pdf = some doc)
    (hopen : env.is_open output_file = true) :
    convert_pdf.pdf2txt env input_pdf output_file =
      ⟨Status.returned 0,
        [Event.load_from_file input_pdf, Event.ofstream output_file]
          ++ pageEvents doc output_file
          ++ [Event.cout "PDF successfully converted to text!\n"]⟩ := by
  simp [convert_pdf.pdf2txt, hload, hopen, pageLoop_eq_pageEvents]

theorem pdf2txt_variants_eq (env : Env) (input_pdf output_file : String) :
    cpp_pdf_converter.pdf2txt env input_pdf output_file
      = convert_pdf.pdf2txt env input_pdf output_file := rfl

theorem pdf_to_txt_main_eq (env : Env) (argv0 input_pdf output_txt : String) :
    pdf_to_txt.main env argv0 [input_pdf, output_txt]
      = convert_pdf.pdf2txt env input_pdf output_txt := by
  simp [pdf_to_txt.main, convert_pdf.pdf2txt]

theorem bytesWritten_pageEvents (doc : document) (path : String) :
    bytesWritten path (pageEvents doc path) = joinPages (pageTexts doc) := by
  rw [← pageLoop_eq_pageEvents, bytesWritten_pageLoop, pageTexts, List.range_eq_range']

/-- C2. For a document that loads with pages `t_0, ..., t_{N-1}` and an output path
that opens, each of the three text converters returns 0, performs exactly: load,
open, then for every page index in ascending order create the page and write its
text followed by a double newline, then the success message; the characters written
to the output are `t_0 ++ "\n\n" ++ ... ++ t_{N-1} ++ "\n\n"`. -/
theorem C2_extract_text_output (env : Env) (argv0 input_pdf output_file : String)
    (doc : document) (hload : env.load_from_file input_pdf = some doc)
    (hopen : env.is_open output_file = true) :
    ∀ r ∈ [convert_pdf.pdf2txt env input_pdf output_file,
           cpp_pdf_converter.pdf2txt env input_pdf output_file,
           pdf_to_txt.main env argv0 [input_pdf, output_file]],
      r.status = Status.returned 0 ∧
      r.trace = [Event.load_from_file input_pdf, Event.ofstream output_file]
          ++ pageEvents doc output_file
          ++ [Event.cout "PDF successfully converted to text!\n"] ∧
      bytesWritten output_file r.trace = joinPages (pageTexts doc) := by
  intro r hr
  have hr' : r = convert_pdf.pdf2txt env input_pdf output_file := by
    simp only [List.mem_cons, List.mem_singleton, List.not_mem_nil, or_false] at hr
    rcases hr with rfl | rfl | rfl
    · rfl
    · exact pdf2txt_variants_eq env input_pdf output_file
    · exact pdf_to_txt_main_eq env argv0 input_pdf output_file
  rw [hr', pdf2txt_success env input_pdf output_file doc hload hopen]
  refine ⟨rfl, rfl, ?_⟩
  simp [bytesWritten_append, bytesWritten, bytesWritten_pageEvents]

/-- Instance of C2: the three-page document with texts `page1text`, `page2text`,
`page3text` yields `page1text\n\npage2text\n\npage3text\n\n` and status 0. -/
theorem C2_extract_text_output_witness :
    goodEnv.load_from_file "in.pdf" = some threePages ∧ goodEnv.is_open "out.txt" = true ∧
      pageTexts threePages = ["page1text", "page2text", "page3text"] ∧
      (pdf_to_txt.main goodEnv "pdf_to_txt" ["in.pdf", "out.txt"]).status
        = Status.returned 0 ∧
      bytesWritten "out.txt" (pdf_to_txt.main goodEnv "pdf_to_txt" ["in.pdf", "out.txt"]).trace
        = "page1text\n\npage2text\n\npage3text\n\n" := by
  have h := C2_extract_text_output goodEnv "pdf_to_txt" "in.pdf" "out.txt" threePages rfl rfl
    (pdf_to_txt.main goodEnv "pdf_to_txt" ["in.pdf", "out.txt"]) (by simp)
  refine ⟨rfl, rfl, by decide, h.1, ?_⟩
  rw [h.2.2]
  decide

/-- C6. For each of the three text converters: when the document does not load, the
run is exactly the load attempt followed by the diagnostic on standard error, with
result 1 (the output is never opened, no page is read); when the document loads but
the output does not open, the run is exactly load, open attempt, diagnostic, with
result 1 (no page is created, nothing is written).  Neither run writes to standard
output. -/
theorem C6_extract_text_aborts_on_open_failure (env : Env)
    (argv0 input_pdf output_file : String) :
    ∀ r ∈ [convert_pdf.pdf2txt env input_pdf output_file,
           cpp_pdf_converter.pdf2txt env input_pdf output_file,
           pdf_to_txt.main env argv0 [input_pdf, output_file]],
      (env.load_from_file input_pdf = none →
        r = ⟨Status.returned 1,
              [Event.load_from_file input_pdf,
               Event.cerr ("Error occurred while opening PDF: " ++ input_pdf ++ "\n")]⟩ ∧
        ∀ e ∈ r.trace, e ≠ Event.ofstream output_file ∧ e.isCout = false ∧
          (∀ i, e ≠ Event.create_page i) ∧ (∀ p d, e ≠ Event.fileWrite p d)) ∧
      (∀ doc, env.load_from_file input_pdf = some doc → env.is_open output_file = false →
        r = ⟨Status.returned 1,
              [Event.load_from_file input_pdf, Event.ofstream output_file,
               Event.cerr
                 ("Error occurred while opening output file: " ++ output_file ++ "\n")]⟩ ∧
        ∀ e ∈ r.trace, e.isCout = false ∧
          (∀ i, e ≠ Event.create_page i) ∧ (∀ p d, e ≠ Event.fileWrite p d)) := by
  intro r hr
  have hr' : r = convert_pdf.pdf2txt env input_pdf output_file := by
    simp only [List.mem_cons, List.mem_singleton, List.not_mem_nil, or_false] at hr
    rcases hr with rfl | rfl | rfl
    · rfl
    · exact pdf2txt_variants_eq env input_pdf output_file
    · exact pdf_to_txt_main_eq env argv0 input_pdf output_file
  subst hr'
  constructor
  · intro hload
    have hrun : convert_pdf.pdf2txt env input_pdf output_file =
        ⟨Status.returned 1,
          [Event.load_from_file input_pdf,
           Event.cerr ("Error occurred while opening PDF: " ++ input_pdf ++ "\n")]⟩ := by
      simp [convert_pdf.pdf2txt, hload]
    refine ⟨hrun, ?_⟩
    rw [hrun]
    intro e he
    simp only [List.mem_cons, List.mem_singleton, List.not_mem_nil, or_false] at he
    rcases he with rfl | rfl <;> simp [Event.isCout]
  · intro doc hload hopen
    have hrun : convert_pdf.pdf2txt env input_pdf output_file =
        ⟨Status.returned 1,
          [Event.load_from_file input_pdf, Event.ofstream output_file,
           Event.cerr
             ("Error occurred while opening output file: " ++ output_file ++ "\n")]⟩ := by
      simp [convert_pdf.pdf2txt, hload, hopen]
    refine ⟨hrun, ?_⟩
    rw [hrun]
    intro e he
    simp only [List.mem_cons, List.mem_singleton, List.not_mem_nil, or_false] at he
    rcases he with rfl | rfl | rfl <;> simp [Event.isCout]

/-- Instances of C6: an input that does not load, and an input that loads with an
output that does not open. -/
theorem C6_extract_text_aborts_on_open_failure_witness :
    (badEnv.load_from_file "missing.pdf" = none ∧
      convert_pdf.pdf2txt badEnv "missing.pdf" "out.txt" =
        ⟨Status.returned 1,
          [Event.load_from_file "missing.pdf",
           Event.cerr "Error occurred while opening PDF: missing.pdf\n"]⟩) ∧
    (readOnlyEnv.load_from_file "in.pdf" = some threePages ∧
      readOnlyEnv.is_open "/out.txt" = false ∧
      pdf_to_txt.main readOnlyEnv "pdf_to_txt" ["in.pdf", "/out.txt"] =
        ⟨Status.returned 1,
          [Event.load_from_file "in.pdf", Event.ofstream "/out.txt",
           Event.cerr "Error occurred while opening output file: /out.txt\n"]⟩) :=
  ⟨⟨rfl, ((C6_extract_text_aborts_on_open_failure badEnv "convert" "missing.pdf" "out.txt"
      (convert_pdf.pdf2txt badEnv "missing.pdf" "out.txt") (by simp)).1 rfl).1⟩,
   ⟨rfl, rfl, ((C6_extract_text_aborts_on_open_failure readOnlyEnv "pdf_to_txt" "in.pdf"
      "/out.txt" (pdf_to_txt.main readOnlyEnv "pdf_to_txt" ["in.pdf", "/out.txt"])
      (by simp)).2 threePages rfl rfl).1⟩⟩

/-! ## Exit codes, flag dispatch, argument count, colour handling -/

/-- C3 (evaluation at the failing input). With two arguments and an input that
ImageMagick cannot read, `main` of `pdf_to_img.cpp` writes the diagnostic to standard
error and returns 0, while `pdf2img` of Variant B, called through its `main` on the
same input in the same environment, returns 1. -/
theorem C3_pdf_to_img_returns_zero_on_failure :
    badEnv.readImage ("missing.pdf" ++ "[0]") = Except.error "unable to open image" ∧
      pdf_to_img.main badEnv "pdf_to_img" ["missing.pdf", "out.jpg"] =
        ⟨Status.returned 0,
          [Event.InitializeMagick, Event.imageRead "missing.pdf[0]",
           Event.cerr "Error: unable to open image\n"]⟩ ∧
      cpp_pdf_converter.main badEnv "convert" ["img", "missing.pdf", "out.jpg"] =
        ⟨Status.returned 1,
          [Event.InitializeMagick, Event.imageRead "missing.pdf[0]",
           Event.cerr "Error: unable to open image\n"]⟩ := by
  refine ⟨rfl, ?_, ?_⟩ <;> decide

/-- C8. Variant B with three arguments: flag `img` makes `main` exactly the call
`pdf2img(input_pdf, output_file)`, flag `txt` exactly the call
`pdf2txt(input_pdf, output_file)`, and any other flag makes `main` write one
diagnostic to standard error and return 1 without any other action; this holds for
every output path. -/
theorem C8_flag_dispatch (env : Env) (argv0 input_pdf output_file : String) :
    cpp_pdf_converter.main env argv0 ["img", input_pdf, output_file]
        = cpp_pdf_converter.pdf2img env input_pdf output_file ∧
      cpp_pdf_converter.main env argv0 ["txt", input_pdf, output_file]
        = cpp_pdf_converter.pdf2txt env input_pdf output_file ∧
      ∀ flag : String, flag ≠ "img" → flag ≠ "txt" →
        cpp_pdf_converter.main env argv0 [flag, input_pdf, output_file]
          = ⟨Status.returned 1, [Event.cerr "Invalid format specified.\n"]⟩ := by
  refine ⟨?_, ?_, ?_⟩
  · simp [cpp_pdf_converter.main]
  · simp [cpp_pdf_converter.main]
  · intro flag h1 h2
    simp [cpp_pdf_converter.main, h1, h2]

/-- Instance of C8 at the flag `jpg` with an output path that has an image extension. -/
theorem C8_flag_dispatch_witness :
    ("jpg" : String) ≠ "img" ∧ ("jpg" : String) ≠ "txt" ∧
      cpp_pdf_converter.main goodEnv "convert" ["jpg", "in.pdf", "out.jpg"]
        = ⟨Status.returned 1, [Event.cerr "Invalid format specified.\n"]⟩ :=
  ⟨by decide, by decide,
    (C8_flag_dispatch goodEnv "convert" "in.pdf" "out.jpg").2.2 "jpg" (by decide) (by decide)⟩

/-- C9. In each of the four programs, an argument count different from the required
one (4 for both `convert_pdf` variants, 3 for `pdf_to_img` and `pdf_to_txt`) makes
`main` write only the usage message to standard error and return 1: the run contains
no library call and no file action. -/
theorem C9_argument_count_check (env : Env) (argv0 : String) (args : List String) :
    (args.length + 1 ≠ 4 →
      convert_pdf.main env argv0 args =
        ⟨Status.returned 1,
          [Event.cerr ("Usage: " ++ argv0 ++ " <format_to> <input_pdf> <output_file>\n")]⟩ ∧
      cpp_pdf_converter.main env argv0 args =
        ⟨Status.returned 1,
          [Event.cerr ("Usage: " ++ argv0 ++ " <format_to> <input_pdf> <output_file>\n")]⟩) ∧
    (args.length + 1 ≠ 3 →
      pdf_to_img.main env argv0 args =
        ⟨Status.returned 1,
          [Event.cerr ("Usage: " ++ argv0 ++ "<input_pdf> <output_jpeg>\n")]⟩ ∧
      pdf_to_txt.main env argv0 args =
        ⟨Status.returned 1,
          [Event.cerr ("Usage: " ++ argv0 ++ "<input_pdf> <output_txt>\n")]⟩) := by
  constructor
  · intro h
    exact ⟨by simp only [convert_pdf.main, if_pos h],
      by simp only [cpp_pdf_converter.main, if_pos h]⟩
  · intro h
    exact ⟨by simp only [pdf_to_img.main, if_pos h], by simp only [pdf_to_txt.main, if_pos h]⟩

/-- Instances of C9: no argument at all (`argc = 1`) and one argument too many. -/
theorem C9_argument_count_check_witness :
    (([] : List String).length + 1 ≠ 4 ∧
      convert_pdf.main goodEnv "convert" [] =
        ⟨Status.returned 1,
          [Event.cerr "Usage: convert <format_to> <input_pdf> <output_file>\n"]⟩) ∧
    (["in.pdf", "out.txt", "extra"].length + 1 ≠ 3 ∧
      pdf_to_txt.main goodEnv "pdf_to_txt" ["in.pdf", "out.txt", "extra"] =
        ⟨Status.returned 1,
          [Event.cerr "Usage: pdf_to_txt<input_pdf> <output_txt>\n"]⟩) :=
  ⟨⟨by decide, ((C9_argument_count_check goodEnv "convert" []).1 (by decide)).1⟩,
   ⟨by decide, ((C9_argument_count_check goodEnv "pdf_to_txt"
      ["in.pdf", "out.txt", "extra"]).2 (by decide)).2⟩⟩

/-- C10 (evaluation at the failing input). For a first page that loads as a grayscale
image, `pdf2img` of Variant B and `main` of `pdf_to_img.cpp` hand the image to
`write` unchanged (type grayscale, colour space not RGB), while `pdf2img` of
Variant A hands over a true-color RGB image. -/
theorem C10_grayscale_written_unchanged :
    goodEnv.readImage ("in.pdf" ++ "[0]") = Except.ok grayPage ∧
      grayPage.type = ImageType.GrayscaleType ∧
      grayPage.colorSpace ≠ ColorspaceType.RGBColorspace ∧
      imagesWritten (cpp_pdf_converter.pdf2img goodEnv "in.pdf" "out.jpg").trace
        = [grayPage] ∧
      imagesWritten (pdf_to_img.main goodEnv "pdf_to_img" ["in.pdf", "out.jpg"]).trace
        = [grayPage] ∧
      imagesWritten (convert_pdf.pdf2img goodEnv "in.pdf" "out.jpg").trace
        = [{ magick := "jpg", type := ImageType.TrueColorType,
             colorSpace := ColorspaceType.RGBColorspace, profiles := [] }] := by
  refine ⟨rfl, rfl, by decide, ?_, ?_, ?_⟩ <;> decide

end PdfConv
